import Mathlib

/-!
Verification development for the astro-global-state library.

The library stores global state in a @tanstack/react-query `QueryClient`
cache.  We shallowly embed the cache as an association list from query keys
(`List String`) to query states, JavaScript values as an inductive type that
keeps `undefined` and `null` distinct, and the `useGlobal` hook from
`src/useGlobal/useGlobal.ts` as pure state-passing functions over that cache.
-/

/-- JavaScript runtime values, with `undefined` and `null` kept distinct
(they compare unequal under strict equality in JS). -/
inductive JSVal where
  | undefined
  | null
  | str (s : String)
  | num (n : Int)
  | bool (b : Bool)
  | obj (id : Nat)
deriving DecidableEq, Repr

/-- The `StateKey` type of useGlobal.ts: `string | string[]`. -/
inductive StateKey where
  | str (s : String)
  | seq (l : List String)
deriving DecidableEq, Repr

/-- The constant namespace token `GLOBAL_KEY = "__GLOBAL_STATE__"` from
useGlobal.ts. -/
def GLOBAL_KEY : String := "__GLOBAL_STATE__"

/-- The expression `Array.isArray(key) ? key.join(".") : key` from
useGlobal.ts: a sequence key is joined with the separator ".". -/
def joinKey : StateKey → String
  | .str s => s
  | .seq l => String.intercalate "." l

/-- The query key `theKey = [GLOBAL_KEY, Array.isArray(key) ? key.join(".") : key]`
built by both the accessor-mode `get` and the hook mode of useGlobal.ts. -/
def theKey (k : StateKey) : List String := [GLOBAL_KEY, joinKey k]

/-- State of one query entry in the React Query cache: its stored data and
its invalidation flag.  Data `JSVal.undefined` means the query holds no data
(React Query never stores `undefined` as data). -/
structure QueryState where
  data : JSVal
  invalidated : Bool
deriving DecidableEq, Repr

/-- The React Query cache: an association list from query keys to query
states (at most one entry per key, the first match wins on lookup). -/
structure Cache where
  entries : List (List String × QueryState)
deriving DecidableEq, Repr

/-- Look up the query state stored under a query key. -/
def Cache.lookup (c : Cache) (qk : List String) : Option QueryState :=
  (c.entries.find? (fun e => decide (e.1 = qk))).map (fun e => e.2)

/-- React Query partial key matching: a filter key matches every query key
that starts with it.  Used by `removeQueries` and `invalidateQueries`. -/
def keyHashMatch (filterKey queryKey : List String) : Bool :=
  decide (filterKey = queryKey.take filterKey.length)

/-- `queryClient.getQueryData(theKey)`: the stored data, or `undefined`
when no entry (or no data) exists under the key. -/
def Cache.getQueryData (c : Cache) (qk : List String) : JSVal :=
  match c.lookup qk with
  | some st => st.data
  | none => .undefined

/-- `queryClient.setQueryData(theKey, val)`: writes `val` under the key.
React Query treats an `undefined` value as a no-op (it never stores
`undefined`); a successful write stores the data and clears the
invalidation flag (internally a manual success dispatch). -/
def Cache.setQueryData (c : Cache) (qk : List String) (v : JSVal) : Cache :=
  if v = .undefined then c
  else ⟨(qk, ⟨v, false⟩) :: c.entries.filter (fun e => !decide (e.1 = qk))⟩

/-- `queryClient.removeQueries({ queryKey })`: removes every query whose
key starts with the given filter key. -/
def Cache.removeQueries (c : Cache) (qk : List String) : Cache :=
  ⟨c.entries.filter (fun e => !keyHashMatch qk e.1)⟩

/-- `queryClient.invalidateQueries({ queryKey })`: marks every matching
query as invalidated.  The stored data is untouched; no refetch happens
here because every query created by useGlobal has `enabled: false`, and
React Query does not refetch disabled queries on invalidation. -/
def Cache.invalidateQueries (c : Cache) (qk : List String) : Cache :=
  ⟨c.entries.map (fun e =>
    if keyHashMatch qk e.1 then (e.1, ⟨e.2.data, true⟩) else e)⟩

/-- The `initialData` argument of hook mode: absent, a literal value, or a
zero-argument initializer function (`typeof initialData === "function"`). -/
inductive InitialData where
  | omitted
  | value (v : JSVal)
  | thunk (f : Unit → JSVal)

/-- The expression `typeof initialData === "function" ? initialData() : initialData`
from useGlobal.ts; an omitted argument resolves to `undefined`. -/
def resolveInitial : InitialData → JSVal
  | .omitted => .undefined
  | .value v => v
  | .thunk f => f ()

/-- The options record passed to `useQuery` by hook mode:
`{ queryKey: theKey, enabled: false, queryFn: () => theInitialData!,
initialData: theInitialData, staleTime: Infinity }`. -/
structure UseQueryOptions where
  queryKey : List String
  enabled : Bool
  queryFn : Option (Unit → JSVal)
  initialData : JSVal
  staleTimeInfinite : Bool

/-- The concrete `useQuery` options built by hook mode of useGlobal.ts.
Note that a query function IS set: `queryFn: () => theInitialData!`. -/
def mkUseQueryOptions (k : StateKey) (init : InitialData) : UseQueryOptions :=
  { queryKey := theKey k
    enabled := false
    queryFn := some (fun _ => resolveInitial init)
    initialData := resolveInitial init
    staleTimeInfinite := true }

/-- Semantics of the `useQuery` call of hook mode on the cache: with
`enabled: false` no fetch runs; if the query already holds data, that data
is returned (initialData is ignored); otherwise a non-`undefined`
`initialData` is persisted into the cache and returned; with no initial
data the resulting `data` is `undefined`.  (A dataless query object React
Query creates in the last case is unobservable through `getQueryData`,
so we leave the cache unchanged.)  Returns the new cache and `data`. -/
def useQueryRead (c : Cache) (qk : List String) (initialData : JSVal) :
    Cache × JSVal :=
  let cur := c.getQueryData qk
  if cur ≠ .undefined then (c, cur)
  else if initialData ≠ .undefined then (c.setQueryData qk initialData, initialData)
  else (c, .undefined)

/-- Hook mode of `useGlobal(key, initialData?)`: builds `theKey`, resolves
the initial data, and reads through `useQuery`.  Returns the new cache and
the `currentValue` (`data!`) of the returned 4-tuple. -/
def useGlobalHook (c : Cache) (key : StateKey) (init : InitialData) :
    Cache × JSVal :=
  useQueryRead c (theKey key) (resolveInitial init)

/-- The `React.SetStateAction` argument accepted by `setData`: a literal
value or an updater function of the previous value. -/
inductive SetStateAction where
  | value (v : JSVal)
  | updater (f : JSVal → JSVal)

/-- The `setData` closure returned by hook mode: when the argument is a
function it is applied to `data` — the value captured by the closure at
render time (`snapshot`), not the value stored in the cache at call time —
and the result is written with `setQueryData`. -/
def setData (c : Cache) (qk : List String) (snapshot : JSVal)
    (arg : SetStateAction) : Cache :=
  let val := match arg with
    | .value v => v
    | .updater f => f snapshot
  c.setQueryData qk val

/-- The `reset` closure: `queryClient.removeQueries({ queryKey: theKey })`. -/
def resetGlobal (c : Cache) (k : StateKey) : Cache :=
  c.removeQueries (theKey k)

/-- The `refresh` closure: `queryClient.invalidateQueries({ queryKey: theKey })`. -/
def refreshGlobal (c : Cache) (k : StateKey) : Cache :=
  c.invalidateQueries (theKey k)

/-- Accessor-mode `get(key)`: looks up the namespaced key and returns
`data ?? null` — the nullish coalescing maps `undefined` (and `null`) to
`null`. -/
def accessorGet (c : Cache) (key : StateKey) : JSVal :=
  match c.getQueryData (theKey key) with
  | .undefined => .null
  | .null => .null
  | v => v

/-- Truthiness of a `StateKey` as tested by `if (!key)` in useGlobal.ts:
the empty string is the only falsy string; an array is always truthy. -/
def keyIsFalsy : StateKey → Bool
  | .str s => decide (s = "")
  | .seq _ => false

/-- The two modes of `useGlobal`. -/
inductive Mode where
  | accessor
  | hook
deriving DecidableEq, Repr

/-- Mode dispatch of useGlobal.ts: an absent key or a falsy key selects
accessor mode (`if (!key)`); every other key selects hook mode. -/
def dispatchMode : Option StateKey → Mode
  | none => .accessor
  | some k => if keyIsFalsy k then .accessor else .hook

/-- The module-level singleton from react-query-client.ts:
`globalThis.__astroQueryClient || (globalThis.__astroQueryClient = new QueryClient())`.
Clients are identified by numeric ids; `st` is the current value of
`globalThis.__astroQueryClient` and `fresh` the id a `new QueryClient()`
would produce.  Returns the resolved client and the updated global slot. -/
def queryClientGet (st : Option Nat) (fresh : Nat) : Nat × Option Nat :=
  match st with
  | some c => (c, some c)
  | none => (fresh, some fresh)

/-- Resolution of the active client at the top of useGlobal.ts:
`try { useQueryClient() } catch { globalQueryClient }` followed by
`if (!queryClient) throw new Error(...)`.  The context client is `some`
when a provider is mounted; `globalClient` is the module singleton. -/
def resolveQueryClient (ctx : Option Nat) (globalClient : Nat) :
    Except String Nat :=
  let queryClient : Option Nat :=
    match ctx with
    | some c => some c
    | none => some globalClient
  match queryClient with
  | some c => .ok c
  | none => .error "[useGlobal] No QueryClient available. Ensure ReactQueryProvider or globalQueryClient is configured."

/-! ## Basic cache lemmas -/

/-- A write with a non-undefined value creates a fresh entry under the key. -/
theorem lookup_setQueryData_self (c : Cache) (qk : List String) (v : JSVal)
    (hv : v ≠ .undefined) :
    (c.setQueryData qk v).lookup qk = some ⟨v, false⟩ := by
  simp [Cache.setQueryData, hv, Cache.lookup, List.find?]

/-- Reading back a non-undefined value just written returns that value. -/
theorem getQueryData_setQueryData_self (c : Cache) (qk : List String)
    (v : JSVal) (hv : v ≠ .undefined) :
    (c.setQueryData qk v).getQueryData qk = v := by
  simp [Cache.getQueryData, lookup_setQueryData_self c qk v hv]

/-- A filter key matches itself. -/
theorem keyHashMatch_self (qk : List String) : keyHashMatch qk qk = true := by
  simp [keyHashMatch]

/-- Removing queries by a filter key deletes every matching entry. -/
theorem lookup_removeQueries (c : Cache) (fk qk : List String)
    (h : keyHashMatch fk qk = true) :
    (c.removeQueries fk).lookup qk = none := by
  have hfind : (c.entries.filter (fun e => !keyHashMatch fk e.1)).find?
      (fun e => decide (e.1 = qk)) = none := by
    rw [List.find?_eq_none]
    intro x hx hdec
    rcases List.mem_filter.mp hx with ⟨_, hkeep⟩
    have hx1 : x.1 = qk := of_decide_eq_true hdec
    rw [hx1] at hkeep
    rw [h] at hkeep
    exact Bool.noConfusion hkeep
  simp [Cache.removeQueries, Cache.lookup, hfind]

/-- Mapping a key-preserving, predicate-preserving function through a list
commutes with `find?`. -/
theorem find_map_aux (f : (List String × QueryState) → (List String × QueryState))
    (p : (List String × QueryState) → Bool) (hp : ∀ e, p (f e) = p e)
    (l : List (List String × QueryState)) :
    (l.map f).find? p = (l.find? p).map f := by
  induction l with
  | nil => rfl
  | cons a l ih =>
    by_cases h : p a = true
    · simp [List.find?_cons, hp, h]
    · rw [Bool.not_eq_true] at h
      simp [List.find?_cons, hp, h, ih]

/-- Invalidating by a filter key rewrites the lookup result pointwise:
a matching entry keeps its data and gets its invalidation flag set. -/
theorem lookup_invalidateQueries (c : Cache) (fk qk : List String) :
    (c.invalidateQueries fk).lookup qk = (c.lookup qk).map
      (fun st => if keyHashMatch fk qk then ⟨st.data, true⟩ else st) := by
  unfold Cache.invalidateQueries Cache.lookup
  rw [find_map_aux _ _ (fun e => by by_cases h : keyHashMatch fk e.1 <;> simp [h])]
  cases hfind : c.entries.find? (fun e => decide (e.1 = qk)) with
  | none => rfl
  | some e =>
    have he : e.1 = qk := by
      have hp := List.find?_some hfind
      simpa using hp
    by_cases h : keyHashMatch fk qk = true
    · have h1 : keyHashMatch fk e.1 = true := by rw [he]; exact h
      simp [h, h1]
    · rw [Bool.not_eq_true] at h
      have h2 : keyHashMatch fk e.1 = false := by rw [he]; exact h
      simp [h, h2]

/-- Invalidation never changes the stored data of any entry. -/
theorem getQueryData_invalidateQueries (c : Cache) (fk qk : List String) :
    (c.invalidateQueries fk).getQueryData qk = c.getQueryData qk := by
  unfold Cache.getQueryData
  rw [lookup_invalidateQueries]
  cases c.lookup qk with
  | none => rfl
  | some st => by_cases h : keyHashMatch fk qk = true <;> simp [h]

/-! ## Claim theorems -/

/-- Claim C1: after `setValue(v)` with a literal value `v` under key `k`,
a subsequent hook-mode read of `k` (with any initial-data argument) and an
accessor-mode `get(k)` on the same cache both return `v`.  Values here are
storable JS values, i.e. anything but `undefined` (which the cache never
stores and which the TypeScript signature `T | null` excludes). -/
theorem setValue_then_reads_return_value (c : Cache) (k : StateKey)
    (snapshot v : JSVal) (init : InitialData) (hv : v ≠ .undefined) :
    (useGlobalHook (setData c (theKey k) snapshot (.value v)) k init).2 = v ∧
    accessorGet (setData c (theKey k) snapshot (.value v)) k = v := by
  have hget : (setData c (theKey k) snapshot (.value v)).getQueryData (theKey k) = v := by
    simpa [setData] using getQueryData_setQueryData_self c (theKey k) v hv
  constructor
  · simp [useGlobalHook, useQueryRead, hget, hv]
  · unfold accessorGet
    rw [hget]
    cases v
    · exact absurd rfl hv
    all_goals rfl

/-- Witness for C1 at key "THEME" and value "dark" on the empty cache. -/
theorem setValue_then_reads_return_value_witness :
    (useGlobalHook (setData ⟨[]⟩ (theKey (.str "THEME")) .undefined
        (.value (.str "dark"))) (.str "THEME") .omitted).2 = .str "dark" ∧
    accessorGet (setData ⟨[]⟩ (theKey (.str "THEME")) .undefined
        (.value (.str "dark"))) (.str "THEME") = .str "dark" :=
  setValue_then_reads_return_value ⟨[]⟩ (.str "THEME") .undefined (.str "dark")
    .omitted (by decide)

/-- Claim C2: a hook-mode call with no prior entry under key `k` seeds the
shared entry with initial value `i` and returns `i`; a second hook-mode
call on the resulting cache with the same key and no initial value returns
that same `i` — the entry is shared per (namespace, key), not per caller. -/
theorem seeded_entry_shared (c : Cache) (k : StateKey) (i : JSVal)
    (hi : i ≠ .undefined) (habsent : c.getQueryData (theKey k) = .undefined) :
    (useGlobalHook c k (.value i)).2 = i ∧
    (useGlobalHook (useGlobalHook c k (.value i)).1 k .omitted).2 = i := by
  have h1 : useGlobalHook c k (.value i) = (c.setQueryData (theKey k) i, i) := by
    simp [useGlobalHook, useQueryRead, resolveInitial, habsent, hi]
  have h2 : (c.setQueryData (theKey k) i).getQueryData (theKey k) = i :=
    getQueryData_setQueryData_self c (theKey k) i hi
  refine ⟨by rw [h1], ?_⟩
  rw [h1]
  simp [useGlobalHook, useQueryRead, resolveInitial, h2, hi]

/-- Witness for C2 at key "LANGUAGE" with initial value "en" on the empty
cache. -/
theorem seeded_entry_shared_witness :
    (useGlobalHook ⟨[]⟩ (.str "LANGUAGE") (.value (.str "en"))).2 = .str "en" ∧
    (useGlobalHook (useGlobalHook ⟨[]⟩ (.str "LANGUAGE")
        (.value (.str "en"))).1 (.str "LANGUAGE") .omitted).2 = .str "en" :=
  seeded_entry_shared ⟨[]⟩ (.str "LANGUAGE") (.str "en") (by decide) (by decide)

/-- Claim C3 counterexample: a hook-mode call with no initial value on a
cache where the key was never seeded returns JS `undefined` (the raw
`data` of the disabled query), which is not `null`. -/
theorem unseeded_hook_read_not_null :
    (useGlobalHook ⟨[]⟩ (.str "LANGUAGE") .omitted).2 ≠ JSVal.null := by
  decide

/-- Claim C3 as amended: a hook-mode call with no initial value, before
any writer or seeder has created data for the key, returns `undefined`
as its currentValue (hook mode has no `?? null` coercion, unlike the
accessor-mode `get`). -/
theorem unseeded_hook_read_returns_undef (c : Cache) (k : StateKey)
    (habsent : c.getQueryData (theKey k) = .undefined) :
    (useGlobalHook c k .omitted).2 = .undefined := by
  simp [useGlobalHook, useQueryRead, resolveInitial, habsent]

/-- Witness for the amended C3 at key "LANGUAGE" on the empty cache. -/
theorem unseeded_hook_read_returns_undef_witness :
    (useGlobalHook ⟨[]⟩ (.str "LANGUAGE") .omitted).2 = .undefined :=
  unseeded_hook_read_returns_undef ⟨[]⟩ (.str "LANGUAGE") (by decide)

/-- Increment a numeric JS value; identity on every other value.  Used as
a concrete updater function. -/
def bumpNum : JSVal → JSVal
  | .num n => .num (n + 1)
  | v => v

/-- The cache of the C4 counterexample scenario: at key "COUNT" the entry
was seeded with 0 (the value a component rendered with, so its `setData`
closure captured the snapshot 0) and then `setValue(5)` was called without
an intervening re-render, leaving 5 stored. -/
def counterScenarioCache : Cache :=
  setData (Cache.setQueryData ⟨[]⟩ (theKey (.str "COUNT")) (.num 0))
    (theKey (.str "COUNT")) (.num 0) (.value (.num 5))

/-- Claim C4 counterexample: calling `setValue` with the updater `bumpNum`
while the closure snapshot is 0 but the stored value is 5 writes
`bumpNum 0 = 1`, not `bumpNum 5 = 6` — the updater is not applied to the
value stored immediately before the write. -/
theorem updater_snapshot_counterexample :
    Cache.getQueryData (setData counterScenarioCache (theKey (.str "COUNT"))
        (.num 0) (.updater bumpNum)) (theKey (.str "COUNT")) ≠
      bumpNum (Cache.getQueryData counterScenarioCache (theKey (.str "COUNT"))) := by
  decide

/-- Claim C4 as amended: when `setValue` is called with a function `f`,
the value written to the cache entry is `f` applied to the hook closure's
render-time `data` snapshot (which equals the previously stored value only
when no write happened since that render). -/
theorem updater_applies_to_snapshot (c : Cache) (qk : List String)
    (snapshot : JSVal) (f : JSVal → JSVal) (hf : f snapshot ≠ .undefined) :
    (setData c qk snapshot (.updater f)).getQueryData qk = f snapshot := by
  simpa [setData] using getQueryData_setQueryData_self c qk (f snapshot) hf

/-- Witness for the amended C4: updating with `bumpNum` from snapshot 0
stores `bumpNum 0`. -/
theorem updater_applies_to_snapshot_witness :
    (setData ⟨[]⟩ (theKey (.str "COUNT")) (.num 0)
        (.updater bumpNum)).getQueryData (theKey (.str "COUNT")) = bumpNum (.num 0) :=
  updater_applies_to_snapshot ⟨[]⟩ (theKey (.str "COUNT")) (.num 0) bumpNum
    (by decide)

/-- Claim C5: key encoding is pure — a sequence key and the literal string
equal to its "."-joined form produce the same namespaced query key, so
accessor-mode `get` and hook-mode reads for the two address the identical
cache entry on every cache. -/
theorem seq_key_equals_joined_string_key (l : List String) (c : Cache)
    (init : InitialData) :
    theKey (.seq l) = theKey (.str (String.intercalate "." l)) ∧
    accessorGet c (.seq l) = accessorGet c (.str (String.intercalate "." l)) ∧
    useGlobalHook c (.seq l) init =
      useGlobalHook c (.str (String.intercalate "." l)) init :=
  ⟨rfl, rfl, rfl⟩

/-- Claim C6: `reset()` removes the cache entry for its key entirely, and
a fresh hook-mode call for that key with initial value `i2` then returns
`i2` (the pre-reset value is gone). -/
theorem reset_then_reseed (c : Cache) (k : StateKey) (i2 : JSVal)
    (hi : i2 ≠ .undefined) :
    (resetGlobal c k).lookup (theKey k) = none ∧
    (useGlobalHook (resetGlobal c k) k (.value i2)).2 = i2 := by
  have hrem : (resetGlobal c k).lookup (theKey k) = none :=
    lookup_removeQueries c (theKey k) (theKey k) (keyHashMatch_self (theKey k))
  have hget : (resetGlobal c k).getQueryData (theKey k) = .undefined := by
    simp [Cache.getQueryData, hrem]
  exact ⟨hrem, by simp [useGlobalHook, useQueryRead, resolveInitial, hget, hi]⟩

/-- Witness for C6: resetting a key that stored "old" and re-seeding with
"new" yields "new". -/
theorem reset_then_reseed_witness :
    (resetGlobal (Cache.setQueryData ⟨[]⟩ (theKey (.str "K")) (.str "old"))
        (.str "K")).lookup (theKey (.str "K")) = none ∧
    (useGlobalHook (resetGlobal (Cache.setQueryData ⟨[]⟩ (theKey (.str "K"))
        (.str "old")) (.str "K")) (.str "K") (.value (.str "new"))).2 = .str "new" :=
  reset_then_reseed (Cache.setQueryData ⟨[]⟩ (theKey (.str "K")) (.str "old"))
    (.str "K") (.str "new") (by decide)

/-- Claim C7: client resolution never raises the configuration error: the
`try useQueryClient() catch` fallback always lands on the module singleton,
which is a constructed client, so the `if (!queryClient) throw` branch is
unreachable — resolution succeeds for every context state. -/
theorem queryclient_error_unreachable (ctx : Option Nat) (g : Nat) :
    resolveQueryClient ctx g = .ok (ctx.getD g) := by
  cases ctx <;> rfl

/-- Claim C8: the shared cache registry access is idempotent — the first
access on an empty global slot constructs the client and stores it, and a
later access on the resulting slot returns the same client and leaves the
slot unchanged, regardless of what a fresh construction would produce. -/
theorem queryClient_singleton_idempotent (st : Option Nat) (fresh fresh2 : Nat) :
    queryClientGet none fresh = (fresh, some fresh) ∧
    queryClientGet (queryClientGet st fresh).2 fresh2 =
      ((queryClientGet st fresh).1, (queryClientGet st fresh).2) := by
  cases st <;> exact ⟨rfl, rfl⟩

/-- Claim C9 counterexample: the claim says no fetch function is set for
the underlying query, but hook mode passes `queryFn: () => theInitialData!`
to `useQuery` — a fetch function IS set. -/
theorem refresh_queryFn_is_set :
    (mkUseQueryOptions (.str "LANGUAGE") (.value (.str "en"))).queryFn.isSome = true :=
  rfl

/-- Claim C9 as amended: `refresh()` leaves the stored value of the entry
unchanged and marks the entry invalidated (subscribers are notified), and
no refetch overwrites the value because the underlying query is disabled
(`enabled: false`) — even though a fetch function returning the initial
data is set. -/
theorem refresh_marks_invalidated_preserves_value (c : Cache) (k : StateKey)
    (init : InitialData) :
    (refreshGlobal c k).getQueryData (theKey k) = c.getQueryData (theKey k) ∧
    Option.all (fun st => st.invalidated) ((refreshGlobal c k).lookup (theKey k)) = true ∧
    (mkUseQueryOptions k init).enabled = false := by
  refine ⟨getQueryData_invalidateQueries c (theKey k) (theKey k), ?_, rfl⟩
  unfold refreshGlobal
  rw [lookup_invalidateQueries]
  cases c.lookup (theKey k) with
  | none => rfl
  | some st => simp [keyHashMatch_self]

/-- Claim C10: `useGlobal("")` takes accessor mode because mode dispatch
tests the key for JS falsiness (`if (!key)`) and the empty string is falsy,
while the empty array key `[]` is truthy and takes hook mode. -/
theorem empty_string_key_is_accessor_mode :
    dispatchMode (some (.str "")) = .accessor ∧
    dispatchMode (some (.seq [])) = .hook := by
  decide
